import Mathlib

/-!
Verification of `chaosk8s/crd/actions.py` (chaostoolkit-kubernetes).

The module is a set of CRUD wrappers over the Kubernetes custom-objects
REST API.  We embed it shallowly:

* Python strings are `String`, per-character lowering is `pyLower`.
* `get_plural` returns `Option String`: `none` models the `IndexError`
  raised by `singular[-1]` on the empty string.
* Values of unknown Python type (parsed YAML/JSON documents, in-memory
  dicts) are the symbolic type `PyVal`; the external parsers
  `json.loads` / `yaml.safe_load` are its uninterpreted constructors.
* The filesystem (`os.path.isfile` + `open`) is a function
  `String → Option String` from path to content of an existing regular
  file.
* The Kubernetes client is a function from the issued request to the
  server outcome; each operation returns the list of requests it issued
  together with `Except PyErr PyVal` (normal return or raised exception).
  `chaoslib.exceptions.ActivityFailed` is `PyErr.activityFailed`;
  Python `ValueError` / `IndexError` get their own constructors.
-/

namespace ChaosK8s

/-- Python `str.lower()`, modelled as per-character ASCII lowering. -/
def pyLower (s : String) : String := String.mk (s.data.map Char.toLower)

/-- `get_plural` from `chaosk8s/crd/actions.py`.  `singular[-1]` raises
`IndexError` on the empty string, modelled as `none`. -/
def get_plural (singular : String) : Option String :=
  let s := pyLower singular
  if s = "endpoints" then some s
  else
    match s.data.getLast? with
    | none => none
    | some last =>
      if last = 's' then some (s ++ "es")
      else if last = 'y' then some (String.mk s.data.dropLast ++ "ies")
      else some (s ++ "s")

/-- The pluralization algorithm exactly as the specification words it
(lower-case; `"endpoints"` maps to itself; ends in `"s"` appends `"es"`;
ends in `"y"` drops it and appends `"ies"`; else appends `"s"`), to be
compared with `get_plural`. -/
def pluralize_spec (kind : String) : String :=
  let s := pyLower kind
  if s = "endpoints" then s
  else if s.data.getLast? = some 's' then s ++ "es"
  else if s.data.getLast? = some 'y' then String.mk s.data.dropLast ++ "ies"
  else s ++ "s"

/-- A Python value of unknown structure.  `jsonOf raw` is the result of
`json.loads(raw)`, `yamlOf raw` the result of `yaml.safe_load(raw)`
(both parsers are external libraries, kept uninterpreted), `str` a
Python string passed through unparsed, `obj` an arbitrary in-memory
object supplied by the caller. -/
inductive PyVal where
  | str (s : String)
  | jsonOf (raw : String)
  | yamlOf (raw : String)
  | obj (tag : String)
deriving DecidableEq

/-- `kubernetes.client.rest.ApiException`: HTTP status, reason phrase,
raw response body. -/
structure ApiException where
  status : Nat
  reason : String
  body : String
deriving DecidableEq

/-- Outcome of one API call: the raw response data on success, or a
raised `ApiException`. -/
inductive ServerOutcome where
  | success (data : String)
  | apiError (x : ApiException)
deriving DecidableEq

/-- One REST request as issued through `CustomObjectsApi`.  `ns` is
`none` for cluster-scoped calls; `contentType` records a default header
set on the client before the call; `force` records whether the `force`
keyword was passed to the client method (and with which value). -/
structure K8sRequest where
  method : String
  group : String
  version : String
  plural : String
  ns : Option String
  name : Option String
  body : Option PyVal
  contentType : Option String
  force : Option Bool
deriving DecidableEq

/-- A raised Python exception. `activityFailed` is
`chaoslib.exceptions.ActivityFailed` (the spec names it `InvalidInput`
for input errors and `ApiOperationFailed` for server errors). -/
inductive PyErr where
  | activityFailed (msg : String)
  | valueError (msg : String)
  | indexError (msg : String)
deriving DecidableEq

/-- Python truthiness of an optional string: `not x` holds for `None`
and for the empty string. -/
def pyFalsyStr (o : Option String) : Prop := o = none ∨ o = some ""

instance (o : Option String) : Decidable (pyFalsyStr o) := by
  unfold pyFalsyStr
  infer_instance

/-- `load_body` from `chaosk8s/crd/actions.py`.  `fs` maps a path to the
content of an existing regular file (`os.path.isfile` + `open`/`read`).
The YAML parse of the file content is the uninterpreted
`PyVal.yamlOf`. -/
def load_body (fs : String → Option String)
    (body_as_object : Option PyVal) (body_as_yaml_file : Option String) :
    Except PyErr PyVal :=
  if body_as_object = none ∧ pyFalsyStr body_as_yaml_file then
    .error (.activityFailed "Either `body_as_object` or `body_as_yaml_file` must be set")
  else
    match body_as_object with
    | some b => .ok b
    | none =>
      let path := body_as_yaml_file.getD ""
      match fs path with
      | none =>
        .error (.activityFailed ("Path \x27" ++ path ++ "\x27 is not a valid resource file"))
      | some content => .ok (.yamlOf content)

/-- `create_custom_object`: load the body, issue one POST, decode the
response; on a 409 `ApiException` return the decoded exception body; on
any other `ApiException` raise `ActivityFailed` interpolating the reason
and body (f-string). -/
def create_custom_object (fs : String → Option String)
    (group version plural ns : String)
    (resource : Option PyVal) (resource_as_yaml_file : Option String)
    (server : K8sRequest → ServerOutcome) :
    List K8sRequest × Except PyErr PyVal :=
  match load_body fs resource resource_as_yaml_file with
  | .error e => ([], .error e)
  | .ok body =>
    let req : K8sRequest :=
      { method := "POST", group := group, version := version, plural := plural,
        ns := some ns, name := none, body := some body,
        contentType := none, force := none }
    match server req with
    | .success data => ([req], .ok (.jsonOf data))
    | .apiError x =>
      if x.status = 409 then ([req], .ok (.jsonOf x.body))
      else
        ([req], .error (.activityFailed
          ("Failed to create custom resource object: \x27" ++ x.reason ++ "\x27 " ++ x.body)))

/-- `create_cluster_custom_object`: as `create_custom_object` but
cluster-scoped; NOTE: the source's non-409 message is a plain string
literal (no `f` prefix), so `\x7bx.reason\x7d` and `\x7bx.body\x7d`
appear verbatim in the message. -/
def create_cluster_custom_object (fs : String → Option String)
    (group version plural : String)
    (resource : Option PyVal) (resource_as_yaml_file : Option String)
    (server : K8sRequest → ServerOutcome) :
    List K8sRequest × Except PyErr PyVal :=
  match load_body fs resource resource_as_yaml_file with
  | .error e => ([], .error e)
  | .ok body =>
    let req : K8sRequest :=
      { method := "POST", group := group, version := version, plural := plural,
        ns := none, name := none, body := some body,
        contentType := none, force := none }
    match server req with
    | .success data => ([req], .ok (.jsonOf data))
    | .apiError x =>
      if x.status = 409 then ([req], .ok (.jsonOf x.body))
      else
        ([req], .error (.activityFailed
          "Failed to create custom resource object: \x27\x7bx.reason\x7d\x27 \x7bx.body\x7d"))

/-- `delete_custom_object`: one DELETE; any `ApiException` raises
`ActivityFailed` interpolating reason and body. -/
def delete_custom_object (group version plural name ns : String)
    (server : K8sRequest → ServerOutcome) :
    List K8sRequest × Except PyErr PyVal :=
  let req : K8sRequest :=
    { method := "DELETE", group := group, version := version, plural := plural,
      ns := some ns, name := some name, body := none,
      contentType := none, force := none }
  match server req with
  | .success data => ([req], .ok (.jsonOf data))
  | .apiError x =>
    ([req], .error (.activityFailed
      ("Failed to delete custom resource object: \x27" ++ x.reason ++ "\x27 " ++ x.body)))

/-- `delete_cluster_custom_object`. -/
def delete_cluster_custom_object (group version plural name : String)
    (server : K8sRequest → ServerOutcome) :
    List K8sRequest × Except PyErr PyVal :=
  let req : K8sRequest :=
    { method := "DELETE", group := group, version := version, plural := plural,
      ns := none, name := some name, body := none,
      contentType := none, force := none }
  match server req with
  | .success data => ([req], .ok (.jsonOf data))
  | .apiError x =>
    ([req], .error (.activityFailed
      ("Failed to delete custom resource object: \x27" ++ x.reason ++ "\x27 " ++ x.body)))

/-- `patch_custom_object`: sets the `Content-Type:
application/json-patch+json` default header, then issues one PATCH.
The source never passes its `force` parameter to
`patch_namespaced_custom_object`, so the request does not depend on it
(`force := none`). -/
def patch_custom_object (fs : String → Option String)
    (group version plural name ns : String) (force : Bool)
    (resource : Option PyVal) (resource_as_yaml_file : Option String)
    (server : K8sRequest → ServerOutcome) :
    List K8sRequest × Except PyErr PyVal :=
  match load_body fs resource resource_as_yaml_file with
  | .error e => ([], .error e)
  | .ok body =>
    let req : K8sRequest :=
      { method := "PATCH", group := group, version := version, plural := plural,
        ns := some ns, name := some name, body := some body,
        contentType := some "application/json-patch+json", force := none }
    match server req with
    | .success data => ([req], .ok (.jsonOf data))
    | .apiError x =>
      ([req], .error (.activityFailed
        ("Failed to patch custom resource object: \x27" ++ x.reason ++ "\x27 " ++ x.body)))

/-- `replace_custom_object`: one PUT with `force=force` forwarded to
`replace_namespaced_custom_object`. -/
def replace_custom_object (fs : String → Option String)
    (group version plural name ns : String) (force : Bool)
    (resource : Option PyVal) (resource_as_yaml_file : Option String)
    (server : K8sRequest → ServerOutcome) :
    List K8sRequest × Except PyErr PyVal :=
  match load_body fs resource resource_as_yaml_file with
  | .error e => ([], .error e)
  | .ok body =>
    let req : K8sRequest :=
      { method := "PUT", group := group, version := version, plural := plural,
        ns := some ns, name := some name, body := some body,
        contentType := none, force := some force }
    match server req with
    | .success data => ([req], .ok (.jsonOf data))
    | .apiError x =>
      ([req], .error (.activityFailed
        ("Failed to replace custom resource object: \x27" ++ x.reason ++ "\x27 " ++ x.body)))

/-- `patch_cluster_custom_object`: cluster-scoped PATCH; same JSON-Patch
default header; the source again never forwards `force`. -/
def patch_cluster_custom_object (fs : String → Option String)
    (group version plural name : String) (force : Bool)
    (resource : Option PyVal) (resource_as_yaml_file : Option String)
    (server : K8sRequest → ServerOutcome) :
    List K8sRequest × Except PyErr PyVal :=
  match load_body fs resource resource_as_yaml_file with
  | .error e => ([], .error e)
  | .ok body =>
    let req : K8sRequest :=
      { method := "PATCH", group := group, version := version, plural := plural,
        ns := none, name := some name, body := some body,
        contentType := some "application/json-patch+json", force := none }
    match server req with
    | .success data => ([req], .ok (.jsonOf data))
    | .apiError x =>
      ([req], .error (.activityFailed
        ("Failed to patch custom resource object: \x27" ++ x.reason ++ "\x27 " ++ x.body)))

/-- `replace_cluster_custom_object`: cluster-scoped PUT with
`force=force` forwarded. -/
def replace_cluster_custom_object (fs : String → Option String)
    (group version plural name : String) (force : Bool)
    (resource : Option PyVal) (resource_as_yaml_file : Option String)
    (server : K8sRequest → ServerOutcome) :
    List K8sRequest × Except PyErr PyVal :=
  match load_body fs resource resource_as_yaml_file with
  | .error e => ([], .error e)
  | .ok body =>
    let req : K8sRequest :=
      { method := "PUT", group := group, version := version, plural := plural,
        ns := none, name := some name, body := some body,
        contentType := none, force := some force }
    match server req with
    | .success data => ([req], .ok (.jsonOf data))
    | .apiError x =>
      ([req], .error (.activityFailed
        ("Failed to replace custom resource object: \x27" ++ x.reason ++ "\x27 " ++ x.body)))

/-- Python `s.rsplit("/", 1)` on the character list: split at the last
`'/'` if any, else return the whole list as a singleton. -/
def rsplitSlash1Chars : List Char → List (List Char)
  | [] => [[]]
  | c :: rest =>
    match rsplitSlash1Chars rest with
    | [before, after] => [c :: before, after]
    | [t] => if c = '/' then [[], rest] else [c :: t]
    | other => other

/-- Python `s.rsplit("/", 1)`. -/
def rsplitSlash1 (s : String) : List String :=
  (rsplitSlash1Chars s.data).map String.mk

/-- The fields of a parsed resource document that `apply_from_json` /
`apply_from_yaml` read: `obj.get("apiVersion")`, `obj.get("kind")`,
`obj.get("metadata", \x7b\x7d).get("namespace")`. -/
structure ResourceDoc where
  apiVersion : Option String
  kind : Option String
  metadataNamespace : Option String
deriving DecidableEq

/-- Shared body of `apply_from_json` / `apply_from_yaml` after the
parse: validate `apiVersion`/`kind`, split `apiVersion` at its last
`/` (`rsplit("/", 1)`; unpacking a single element raises `ValueError`),
pluralize the kind (`IndexError` on the empty kind), and call
`create_custom_object` with the raw `resource` string as the body. -/
def apply_resource (resource : String) (obj : ResourceDoc)
    (fs : String → Option String) (server : K8sRequest → ServerOutcome) :
    List K8sRequest × Except PyErr PyVal :=
  let ns := obj.metadataNamespace.getD "default"
  if pyFalsyStr obj.apiVersion then
    ([], .error (.activityFailed "missing apiVersion in resource"))
  else if pyFalsyStr obj.kind then
    ([], .error (.activityFailed "missing kind in resource"))
  else
    match rsplitSlash1 (obj.apiVersion.getD "") with
    | [group, version] =>
      match get_plural (obj.kind.getD "") with
      | none => ([], .error (.indexError "string index out of range"))
      | some plural =>
        create_custom_object fs group version plural ns (some (.str resource)) none server
    | _ => ([], .error (.valueError "not enough values to unpack (expected 2, got 1)"))

/-- `apply_from_json resource`: `obj` stands for `json.loads(resource)`
(the parser is external), after which the source proceeds exactly as
`apply_resource`. -/
def apply_from_json (resource : String) (obj : ResourceDoc)
    (fs : String → Option String) (server : K8sRequest → ServerOutcome) :
    List K8sRequest × Except PyErr PyVal :=
  apply_resource resource obj fs server

/-- `apply_from_yaml resource`: `obj` stands for
`yaml.safe_load(resource)`; the body is otherwise identical to
`apply_from_json`. -/
def apply_from_yaml (resource : String) (obj : ResourceDoc)
    (fs : String → Option String) (server : K8sRequest → ServerOutcome) :
    List K8sRequest × Except PyErr PyVal :=
  apply_resource resource obj fs server

/-- Substring test used to state what an error message does (not)
contain. -/
def listContainsSub (s sub : List Char) : Bool :=
  sub.isPrefixOf s ||
    match s with
    | [] => false
    | _ :: rest => listContainsSub rest sub

/-- `sub` occurs contiguously inside `s`. -/
def containsSub (s sub : String) : Bool :=
  listContainsSub s.data sub.data

/-- Concrete filesystem with no files, for instantiating theorems. -/
def fsEmpty : String → Option String := fun _ => none

/-- Concrete server that always succeeds. -/
def serverOk : K8sRequest → ServerOutcome := fun _ => .success "created-body"

/-- Concrete server that always answers 409 Conflict. -/
def serverConflict : K8sRequest → ServerOutcome :=
  fun _ => .apiError ⟨409, "Conflict", "existing-object-body"⟩

/-- Concrete server that always answers 500. -/
def serverFail : K8sRequest → ServerOutcome :=
  fun _ => .apiError ⟨500, "Internal Server Error", "boom"⟩

theorem data_ne_nil_of_ne_empty {s : String} (h : s ≠ "") : s.data ≠ [] := by
  intro hnil
  exact h (String.ext hnil)

theorem get_plural_eq_spec (s : String) (h : s ≠ "") :
    get_plural s = some (pluralize_spec s) := by
  have hd : s.data ≠ [] := data_ne_nil_of_ne_empty h
  have hd2 : (s.data.map Char.toLower) ≠ [] := by simpa using hd
  unfold get_plural pluralize_spec
  by_cases he : pyLower s = "endpoints"
  · simp [he]
  · have hlast : ((pyLower s).data.getLast?).isSome := by
      rw [Option.isSome_iff_ne_none]
      intro hn
      exact hd2 (List.getLast?_eq_none_iff.mp hn)
    obtain ⟨c, hc⟩ := Option.isSome_iff_exists.mp hlast
    simp only [he, if_false, hc]
    by_cases hcs : c = 's'
    · simp [hcs]
    · by_cases hcy : c = 'y'
      · simp [hcs, hcy]
      · simp [hcs, hcy]

theorem get_plural_isSome (s : String) (h : s ≠ "") :
    (get_plural s).isSome = true := by
  rw [get_plural_eq_spec s h]
  rfl

theorem rsplitSlash1Chars_no_slash (l : List Char) (h : '/' ∉ l) :
    rsplitSlash1Chars l = [l] := by
  induction l with
  | nil => rfl
  | cons c rest ih =>
    have hc : c ≠ '/' := fun hh => h (by simp [hh])
    have hr : '/' ∉ rest := fun hm => h (List.mem_cons_of_mem _ hm)
    rw [rsplitSlash1Chars, ih hr]
    simp [hc]

theorem rsplitSlash1Chars_last_slash (g v : List Char) (h : '/' ∉ v) :
    rsplitSlash1Chars (g ++ '/' :: v) = [g, v] := by
  induction g with
  | nil =>
    rw [List.nil_append, rsplitSlash1Chars, rsplitSlash1Chars_no_slash v h]
    simp
  | cons c gs ih =>
    rw [List.cons_append, rsplitSlash1Chars, ih]

/-- C3: `get_plural` is a pure, case-insensitive pluralizer that agrees,
on every non-empty input, with the specified algorithm (lower-case;
`"endpoints"` maps to itself; ends in `"s"` appends `"es"`; ends in
`"y"` drops it and appends `"ies"`; else appends `"s"`), and satisfies
the five quoted examples. -/
theorem get_plural_matches_spec :
    (∀ s : String, s ≠ "" → get_plural s = some (pluralize_spec s))
    ∧ get_plural "pod" = some "pods"
    ∧ get_plural "policy" = some "policies"
    ∧ get_plural "endpoints" = some "endpoints"
    ∧ get_plural "ingress" = some "ingresses"
    ∧ get_plural "Deployment" = some "deployments" :=
  ⟨fun s h => get_plural_eq_spec s h, by decide, by decide, by decide, by decide, by decide⟩

theorem get_plural_matches_spec_witness :
    get_plural "widget" = some (pluralize_spec "widget") :=
  get_plural_matches_spec.1 "widget" (by decide)

/-- C9: `get_plural` is partial at the empty string — `""[-1]` raises an
out-of-range indexing error (modelled as `none`) — while every non-empty
input yields a string. -/
theorem get_plural_partial_at_empty :
    get_plural "" = none
    ∧ ∀ s : String, s ≠ "" → (get_plural s).isSome = true :=
  ⟨by decide, fun s h => get_plural_isSome s h⟩

theorem get_plural_partial_at_empty_witness :
    (get_plural "pod").isSome = true :=
  get_plural_partial_at_empty.2 "pod" (by decide)

/-- C1: if the server answers any create (namespaced or cluster-scoped)
with a 409 conflict, the operation does not raise: it returns the
decoded body of the conflicting response, and the single issued request
is the one POST — no update (PATCH/PUT) is sent. -/
theorem create_on_conflict_idempotent
    (fs : String → Option String) (group version plural ns : String)
    (resource : Option PyVal) (file : Option String)
    (server : K8sRequest → ServerOutcome) (x : ApiException) (body : PyVal)
    (hb : load_body fs resource file = .ok body)
    (hs : ∀ r, server r = .apiError x) (h409 : x.status = 409) :
    ((create_custom_object fs group version plural ns resource file server).2
        = .ok (.jsonOf x.body)
      ∧ (∀ r ∈ (create_custom_object fs group version plural ns resource file server).1,
          r.method = "POST")
      ∧ (create_custom_object fs group version plural ns resource file server).1.length = 1)
    ∧ ((create_cluster_custom_object fs group version plural resource file server).2
        = .ok (.jsonOf x.body)
      ∧ (∀ r ∈ (create_cluster_custom_object fs group version plural resource file server).1,
          r.method = "POST")
      ∧ (create_cluster_custom_object fs group version plural resource file server).1.length = 1) := by
  unfold create_custom_object create_cluster_custom_object
  rw [hb]
  simp [hs, h409]

theorem create_on_conflict_idempotent_witness :
    ((create_custom_object fsEmpty "example.com" "v1" "widgets" "default"
        (some (.obj "r")) none serverConflict).2
        = .ok (.jsonOf "existing-object-body")
      ∧ (∀ r ∈ (create_custom_object fsEmpty "example.com" "v1" "widgets" "default"
          (some (.obj "r")) none serverConflict).1, r.method = "POST")
      ∧ (create_custom_object fsEmpty "example.com" "v1" "widgets" "default"
          (some (.obj "r")) none serverConflict).1.length = 1)
    ∧ ((create_cluster_custom_object fsEmpty "example.com" "v1" "widgets"
        (some (.obj "r")) none serverConflict).2
        = .ok (.jsonOf "existing-object-body")
      ∧ (∀ r ∈ (create_cluster_custom_object fsEmpty "example.com" "v1" "widgets"
          (some (.obj "r")) none serverConflict).1, r.method = "POST")
      ∧ (create_cluster_custom_object fsEmpty "example.com" "v1" "widgets"
          (some (.obj "r")) none serverConflict).1.length = 1) :=
  create_on_conflict_idempotent fsEmpty "example.com" "v1" "widgets" "default"
    (some (.obj "r")) none serverConflict ⟨409, "Conflict", "existing-object-body"⟩
    (.obj "r") rfl (fun _ => rfl) rfl

/-- C2 (refuted on `create_cluster_custom_object`): the source's non-409
message there is a plain (non-f) string literal, so with a 500 response
whose reason is "Internal Server Error" and body "boom" the raised
message is the verbatim template text and contains neither the reason
nor the body. -/
theorem create_cluster_error_message_not_interpolated :
    (create_cluster_custom_object fsEmpty "g" "v1" "widgets"
        (some (.obj "r")) none serverFail).2
      = .error (.activityFailed
          "Failed to create custom resource object: \x27\x7bx.reason\x7d\x27 \x7bx.body\x7d")
    ∧ containsSub
        "Failed to create custom resource object: \x27\x7bx.reason\x7d\x27 \x7bx.body\x7d"
        "Internal Server Error" = false
    ∧ containsSub
        "Failed to create custom resource object: \x27\x7bx.reason\x7d\x27 \x7bx.body\x7d"
        "boom" = false :=
  ⟨rfl, by decide, by decide⟩

/-- The error paths that do interpolate: on any non-409 `ApiException`,
`create_custom_object` raises `ActivityFailed` whose message contains
the reason and body verbatim, and every `ApiException` on delete, patch
and replace (namespaced and cluster-scoped) does the same;
`create_cluster_custom_object` raises `ActivityFailed` but with the
literal un-interpolated template instead. -/
theorem api_failures_raise_with_reason_and_body
    (fs : String → Option String) (group version plural name ns : String)
    (force : Bool) (resource : Option PyVal) (file : Option String)
    (server : K8sRequest → ServerOutcome) (x : ApiException) (body : PyVal)
    (hb : load_body fs resource file = .ok body)
    (hs : ∀ r, server r = .apiError x) (hn409 : x.status ≠ 409) :
    ((create_custom_object fs group version plural ns resource file server).2
        = .error (.activityFailed
            ("Failed to create custom resource object: \x27" ++ x.reason ++ "\x27 " ++ x.body)))
    ∧ ((create_cluster_custom_object fs group version plural resource file server).2
        = .error (.activityFailed
            "Failed to create custom resource object: \x27\x7bx.reason\x7d\x27 \x7bx.body\x7d"))
    ∧ ((delete_custom_object group version plural name ns server).2
        = .error (.activityFailed
            ("Failed to delete custom resource object: \x27" ++ x.reason ++ "\x27 " ++ x.body)))
    ∧ ((delete_cluster_custom_object group version plural name server).2
        = .error (.activityFailed
            ("Failed to delete custom resource object: \x27" ++ x.reason ++ "\x27 " ++ x.body)))
    ∧ ((patch_custom_object fs group version plural name ns force resource file server).2
        = .error (.activityFailed
            ("Failed to patch custom resource object: \x27" ++ x.reason ++ "\x27 " ++ x.body)))
    ∧ ((patch_cluster_custom_object fs group version plural name force resource file server).2
        = .error (.activityFailed
            ("Failed to patch custom resource object: \x27" ++ x.reason ++ "\x27 " ++ x.body)))
    ∧ ((replace_custom_object fs group version plural name ns force resource file server).2
        = .error (.activityFailed
            ("Failed to replace custom resource object: \x27" ++ x.reason ++ "\x27 " ++ x.body)))
    ∧ ((replace_cluster_custom_object fs group version plural name force resource file server).2
        = .error (.activityFailed
            ("Failed to replace custom resource object: \x27" ++ x.reason ++ "\x27 " ++ x.body))) := by
  unfold create_custom_object create_cluster_custom_object delete_custom_object
    delete_cluster_custom_object patch_custom_object patch_cluster_custom_object
    replace_custom_object replace_cluster_custom_object
  rw [hb]
  simp [hs, hn409]

theorem api_failures_raise_with_reason_and_body_witness :
    (create_custom_object fsEmpty "g" "v1" "widgets" "default"
        (some (.obj "r")) none serverFail).2
      = .error (.activityFailed
          ("Failed to create custom resource object: \x27" ++ "Internal Server Error"
            ++ "\x27 " ++ "boom")) :=
  (api_failures_raise_with_reason_and_body fsEmpty "g" "v1" "widgets" "w" "default"
    false (some (.obj "r")) none serverFail ⟨500, "Internal Server Error", "boom"⟩
    (.obj "r") rfl (fun _ => rfl) (by decide)).1

/-- C5: `load_body` fails with `ActivityFailed` when both inputs are
unset; fails with `ActivityFailed` naming the path when the path names
no existing regular file; returns a given in-memory object unchanged
whatever the file argument is; and otherwise returns the YAML parse of
the file content (it is a pure function of the filesystem). -/
theorem load_body_contract (fs : String → Option String) :
    load_body fs none none
      = .error (.activityFailed "Either `body_as_object` or `body_as_yaml_file` must be set")
    ∧ (∀ p : String, p ≠ "" → fs p = none →
        load_body fs none (some p)
          = .error (.activityFailed ("Path \x27" ++ p ++ "\x27 is not a valid resource file")))
    ∧ (∀ (b : PyVal) (file : Option String), load_body fs (some b) file = .ok b)
    ∧ (∀ (p content : String), p ≠ "" → fs p = some content →
        load_body fs none (some p) = .ok (.yamlOf content)) := by
  refine ⟨rfl, ?_, ?_, ?_⟩
  · intro p hp hfs
    unfold load_body
    rw [if_neg (by simp [pyFalsyStr, hp])]
    simp [hfs]
  · intro b file
    unfold load_body
    rw [if_neg (by simp)]
  · intro p content hp hfs
    unfold load_body
    rw [if_neg (by simp [pyFalsyStr, hp])]
    simp [hfs]

theorem load_body_contract_witness :
    load_body fsEmpty none (some "no-such-file.yaml")
      = .error (.activityFailed "Path \x27no-such-file.yaml\x27 is not a valid resource file") :=
  (load_body_contract fsEmpty).2.1 "no-such-file.yaml" (by decide) rfl

/-- C6 (refuted on the patch operations): the source never forwards
`force` to `patch_namespaced_custom_object` /
`patch_cluster_custom_object`, so patch calls differing only in `force`
produce identical requests and results; the replace operations do
forward it and their issued requests differ. -/
theorem patch_force_not_forwarded :
    patch_custom_object fsEmpty "g" "v1" "widgets" "w" "default" true
        (some (.obj "p")) none serverOk
      = patch_custom_object fsEmpty "g" "v1" "widgets" "w" "default" false
        (some (.obj "p")) none serverOk
    ∧ patch_cluster_custom_object fsEmpty "g" "v1" "widgets" "w" true
        (some (.obj "p")) none serverOk
      = patch_cluster_custom_object fsEmpty "g" "v1" "widgets" "w" false
        (some (.obj "p")) none serverOk
    ∧ (replace_custom_object fsEmpty "g" "v1" "widgets" "w" "default" true
        (some (.obj "p")) none serverOk).1
      ≠ (replace_custom_object fsEmpty "g" "v1" "widgets" "w" "default" false
        (some (.obj "p")) none serverOk).1
    ∧ (replace_cluster_custom_object fsEmpty "g" "v1" "widgets" "w" true
        (some (.obj "p")) none serverOk).1
      ≠ (replace_cluster_custom_object fsEmpty "g" "v1" "widgets" "w" false
        (some (.obj "p")) none serverOk).1 :=
  ⟨rfl, rfl, by decide, by decide⟩

/-- `force` is an effective input of the replace operations (forwarded
on every issued request), while the patch operations accept it and
ignore it. -/
theorem replace_forwards_force
    (fs : String → Option String) (group version plural name ns : String)
    (force : Bool) (resource : Option PyVal) (file : Option String)
    (server : K8sRequest → ServerOutcome) :
    (∀ r ∈ (replace_custom_object fs group version plural name ns force resource file server).1,
        r.force = some force)
    ∧ (∀ r ∈ (replace_cluster_custom_object fs group version plural name force resource file server).1,
        r.force = some force)
    ∧ (∀ r ∈ (patch_custom_object fs group version plural name ns force resource file server).1,
        r.force = none)
    ∧ (∀ r ∈ (patch_cluster_custom_object fs group version plural name force resource file server).1,
        r.force = none) := by
  refine ⟨?_, ?_, ?_, ?_⟩ <;>
  · intro r hr
    simp only [replace_custom_object, replace_cluster_custom_object,
      patch_custom_object, patch_cluster_custom_object] at hr
    split at hr
    · simp at hr
    · split at hr <;> (simp at hr; rw [hr])

theorem replace_forwards_force_witness :
    ∀ r ∈ (replace_custom_object fsEmpty "g" "v1" "widgets" "w" "default" true
        (some (.obj "p")) none serverOk).1, r.force = some true :=
  (replace_forwards_force fsEmpty "g" "v1" "widgets" "w" "default" true
    (some (.obj "p")) none serverOk).1

/-- C8: every request issued by a patch operation (namespaced or
cluster-scoped) carries the `Content-Type: application/json-patch+json`
header set on the client before the call. -/
theorem patch_sends_json_patch_content_type
    (fs : String → Option String) (group version plural name ns : String)
    (force : Bool) (resource : Option PyVal) (file : Option String)
    (server : K8sRequest → ServerOutcome) :
    (∀ r ∈ (patch_custom_object fs group version plural name ns force resource file server).1,
        r.contentType = some "application/json-patch+json")
    ∧ (∀ r ∈ (patch_cluster_custom_object fs group version plural name force resource file server).1,
        r.contentType = some "application/json-patch+json") := by
  constructor <;>
  · intro r hr
    simp only [patch_custom_object, patch_cluster_custom_object] at hr
    split at hr
    · simp at hr
    · split at hr <;> (simp at hr; rw [hr])

theorem patch_sends_json_patch_content_type_witness :
    ∀ r ∈ (patch_custom_object fsEmpty "g" "v1" "widgets" "w" "default" false
        (some (.obj "p")) none serverOk).1,
      r.contentType = some "application/json-patch+json" :=
  (patch_sends_json_patch_content_type fsEmpty "g" "v1" "widgets" "w" "default" false
    (some (.obj "p")) none serverOk).1

theorem create_match_fst (server : K8sRequest → ServerOutcome) (req : K8sRequest) :
    (match server req with
      | ServerOutcome.success data => ([req], Except.ok (PyVal.jsonOf data))
      | ServerOutcome.apiError x =>
        if x.status = 409 then ([req], Except.ok (PyVal.jsonOf x.body))
        else
          ([req], Except.error (PyErr.activityFailed
            ("Failed to create custom resource object: \x27" ++ x.reason ++ "\x27 " ++ x.body)))).1
      = [req] := by
  cases server req with
  | success d => rfl
  | apiError x =>
    by_cases h : x.status = 409
    · simp [h]
    · simp [h]

theorem create_requests_of_object (fs : String → Option String)
    (group version plural ns : String) (b : PyVal)
    (server : K8sRequest → ServerOutcome) :
    (create_custom_object fs group version plural ns (some b) none server).1
      = [{ method := "POST", group := group, version := version, plural := plural,
           ns := some ns, name := none, body := some b,
           contentType := none, force := none }] := by
  unfold create_custom_object
  rw [show load_body fs (some b) none = .ok b from rfl]
  split
  · rename_i e heq
    simp at heq
  · rename_i body heq
    cases heq
    exact create_match_fst server _

theorem apply_resource_requests (resource : String) (obj : ResourceDoc)
    (fs : String → Option String) (server : K8sRequest → ServerOutcome) :
    (apply_resource resource obj fs server).1 = []
    ∨ ∃ group version plural,
        (apply_resource resource obj fs server).1
          = [{ method := "POST", group := group, version := version, plural := plural,
               ns := some (obj.metadataNamespace.getD "default"), name := none,
               body := some (.str resource), contentType := none, force := none }] := by
  unfold apply_resource
  split
  · exact Or.inl rfl
  · split
    · exact Or.inl rfl
    · split
      · split
        · exact Or.inl rfl
        · exact Or.inr ⟨_, _, _, create_requests_of_object fs _ _ _ _ _ server⟩
      · exact Or.inl rfl

/-- C4: a document whose parse is missing `apiVersion` or missing `kind`
is rejected by `apply_from_json` / `apply_from_yaml` with
`ActivityFailed` (the spec's `InvalidInput`), and no request is issued
(the rejection precedes any network call). -/
theorem apply_missing_field_rejected
    (resource : String) (obj : ResourceDoc)
    (fs : String → Option String) (server : K8sRequest → ServerOutcome)
    (h : obj.apiVersion = none ∨ obj.kind = none) :
    ((apply_from_json resource obj fs server).1 = []
      ∧ ∃ m, (apply_from_json resource obj fs server).2 = .error (.activityFailed m))
    ∧ ((apply_from_yaml resource obj fs server).1 = []
      ∧ ∃ m, (apply_from_yaml resource obj fs server).2 = .error (.activityFailed m)) := by
  have key : (apply_resource resource obj fs server).1 = []
      ∧ ∃ m, (apply_resource resource obj fs server).2 = .error (.activityFailed m) := by
    unfold apply_resource
    rcases h with h | h
    · rw [if_pos (show pyFalsyStr obj.apiVersion from Or.inl h)]
      exact ⟨rfl, _, rfl⟩
    · by_cases hA : pyFalsyStr obj.apiVersion
      · rw [if_pos hA]
        exact ⟨rfl, _, rfl⟩
      · rw [if_neg hA, if_pos (show pyFalsyStr obj.kind from Or.inl h)]
        exact ⟨rfl, _, rfl⟩
  exact ⟨key, key⟩

theorem apply_missing_field_rejected_witness :
    ((apply_from_json "doc" ⟨none, some "Widget", none⟩ fsEmpty serverOk).1 = []
      ∧ ∃ m, (apply_from_json "doc" ⟨none, some "Widget", none⟩ fsEmpty serverOk).2
          = .error (.activityFailed m))
    ∧ ((apply_from_yaml "doc" ⟨none, some "Widget", none⟩ fsEmpty serverOk).1 = []
      ∧ ∃ m, (apply_from_yaml "doc" ⟨none, some "Widget", none⟩ fsEmpty serverOk).2
          = .error (.activityFailed m)) :=
  apply_missing_field_rejected "doc" ⟨none, some "Widget", none⟩ fsEmpty serverOk (Or.inl rfl)

/-- C7: applying a document whose parse has apiVersion
`"example.com/v1"`, kind `"Widget"` and metadata.namespace `"ns1"`
issues exactly one POST with group `"example.com"`, version `"v1"`,
namespace `"ns1"`, plural `"widgets"` and the whole resource string as
body; and for any document whose metadata.namespace is absent, every
issued request carries namespace `"default"`. -/
theorem apply_issues_single_create
    (resource : String) (obj : ResourceDoc)
    (fs : String → Option String) (server : K8sRequest → ServerOutcome)
    (hA : obj.apiVersion = some "example.com/v1")
    (hK : obj.kind = some "Widget")
    (hN : obj.metadataNamespace = some "ns1") :
    ((apply_from_json resource obj fs server).1
        = [{ method := "POST", group := "example.com", version := "v1",
             plural := "widgets", ns := some "ns1", name := none,
             body := some (.str resource), contentType := none, force := none }])
    ∧ ((apply_from_yaml resource obj fs server).1
        = [{ method := "POST", group := "example.com", version := "v1",
             plural := "widgets", ns := some "ns1", name := none,
             body := some (.str resource), contentType := none, force := none }])
    ∧ (∀ obj2 : ResourceDoc, obj2.metadataNamespace = none →
        ∀ r ∈ (apply_from_json resource obj2 fs server).1, r.ns = some "default")
    ∧ (∀ obj2 : ResourceDoc, obj2.metadataNamespace = none →
        ∀ r ∈ (apply_from_yaml resource obj2 fs server).1, r.ns = some "default") := by
  have key : (apply_resource resource obj fs server).1
      = [{ method := "POST", group := "example.com", version := "v1",
           plural := "widgets", ns := some "ns1", name := none,
           body := some (.str resource), contentType := none, force := none }] := by
    unfold apply_resource
    rw [hA, hK, hN]
    rw [if_neg (by decide), if_neg (by decide)]
    simp only [Option.getD_some]
    rw [show rsplitSlash1 "example.com/v1" = ["example.com", "v1"] from by decide]
    rw [show get_plural "Widget" = some "widgets" from by decide]
    exact create_requests_of_object fs "example.com" "v1" "widgets" "ns1"
      (.str resource) server
  have hdef : ∀ obj2 : ResourceDoc, obj2.metadataNamespace = none →
      ∀ r ∈ (apply_resource resource obj2 fs server).1, r.ns = some "default" := by
    intro obj2 h2 r hr
    rcases apply_resource_requests resource obj2 fs server with hnil | ⟨g, v, p, hone⟩
    · rw [hnil] at hr
      simp at hr
    · rw [hone] at hr
      simp at hr
      rw [hr, h2]
      rfl
  exact ⟨key, key, hdef, hdef⟩

theorem apply_issues_single_create_witness :
    (apply_from_json "doc" ⟨some "example.com/v1", some "Widget", some "ns1"⟩
        fsEmpty serverOk).1
      = [{ method := "POST", group := "example.com", version := "v1",
           plural := "widgets", ns := some "ns1", name := none,
           body := some (.str "doc"), contentType := none, force := none }] :=
  (apply_issues_single_create "doc" ⟨some "example.com/v1", some "Widget", some "ns1"⟩
    fsEmpty serverOk rfl rfl rfl).1

/-- C10: a present non-empty `apiVersion` containing no `/` makes
`apply_from_json` / `apply_from_yaml` fail with an unhandled
`ValueError` from the group/version unpacking (not `ActivityFailed`);
an `apiVersion` with more than one `/` is accepted, the last `/`
separating group from version, with the group keeping the earlier
slashes. -/
theorem apply_apiVersion_slash_semantics :
    (∀ (resource v k : String) (mns : Option String)
        (fs : String → Option String) (server : K8sRequest → ServerOutcome),
        v ≠ "" → '/' ∉ v.data → k ≠ "" →
        apply_from_json resource ⟨some v, some k, mns⟩ fs server
            = ([], .error (.valueError "not enough values to unpack (expected 2, got 1)"))
          ∧ apply_from_yaml resource ⟨some v, some k, mns⟩ fs server
            = ([], .error (.valueError "not enough values to unpack (expected 2, got 1)")))
    ∧ (∀ (resource k : String) (gl vl : List Char) (mns : Option String)
        (fs : String → Option String) (server : K8sRequest → ServerOutcome),
        '/' ∉ vl → k ≠ "" →
        ∃ plural,
          (apply_from_json resource ⟨some (String.mk (gl ++ '/' :: vl)), some k, mns⟩
              fs server).1
            = [{ method := "POST", group := String.mk gl, version := String.mk vl,
                 plural := plural, ns := some (mns.getD "default"), name := none,
                 body := some (.str resource), contentType := none, force := none }]) := by
  constructor
  · intro resource v k mns fs server hv hslash hk
    have key : apply_resource resource ⟨some v, some k, mns⟩ fs server
        = ([], .error (.valueError "not enough values to unpack (expected 2, got 1)")) := by
      unfold apply_resource
      rw [if_neg (by simp [pyFalsyStr, hv]), if_neg (by simp [pyFalsyStr, hk])]
      simp only [Option.getD_some]
      rw [show rsplitSlash1 v = [String.mk v.data]
        from by rw [rsplitSlash1, rsplitSlash1Chars_no_slash v.data hslash]; rfl]
    exact ⟨key, key⟩
  · intro resource k gl vl mns fs server hslash hk
    obtain ⟨plural, hp⟩ := Option.isSome_iff_exists.mp (get_plural_isSome k hk)
    refine ⟨plural, ?_⟩
    have hne : String.mk (gl ++ '/' :: vl) ≠ "" := by
      intro hh
      have := congrArg String.data hh
      simp at this
    show (apply_resource resource ⟨some (String.mk (gl ++ '/' :: vl)), some k, mns⟩
        fs server).1 = _
    unfold apply_resource
    rw [if_neg (by simp [pyFalsyStr, hne]), if_neg (by simp [pyFalsyStr, hk])]
    simp only [Option.getD_some]
    rw [show rsplitSlash1 (String.mk (gl ++ '/' :: vl)) = [String.mk gl, String.mk vl]
      from by rw [rsplitSlash1]; rw [show (String.mk (gl ++ '/' :: vl)).data
          = gl ++ '/' :: vl from rfl, rsplitSlash1Chars_last_slash gl vl hslash]; rfl]
    rw [hp]
    exact create_requests_of_object fs (String.mk gl) (String.mk vl) plural
      (mns.getD "default") (.str resource) server

theorem apply_apiVersion_slash_semantics_witness :
    apply_from_json "doc" ⟨some "v1", some "Widget", none⟩ fsEmpty serverOk
      = ([], .error (.valueError "not enough values to unpack (expected 2, got 1)")) :=
  (apply_apiVersion_slash_semantics.1 "doc" "v1" "Widget" none fsEmpty serverOk
    (by decide) (by decide) (by decide)).1

end ChaosK8s
